import Mathlib

/-
Verification of the smart-bookmarker backend against its specification.

The development shallowly embeds the relevant code of
src/backend/app/core/ai.py and src/backend/app/api/endpoints/{bookmarks,folders}.py.

Modelling conventions:
* Python strings are Lean String values; the Python string operations used by
  the source (split, strip, startswith, slicing, lower, len) are re-implemented
  structurally over the underlying character list so that every definition is
  executable and kernel-reducible.  Python len and slicing count characters,
  as List Char length/take/drop do.
* The language-model calls (Ollama chains) and the HTTP fetch are external
  effects; each call site takes its outcome as an explicit argument of type
  Except Unit A: `.ok a` is a successful response `a`, `.error ()` is a raised
  exception (network failure, unparseable output).  A Python try/except block
  becomes a match on that argument.
* Float confidence scores are modelled as rationals.  The two constants that
  the source compares or returns (0.65 and 0.3) are exactly representable, so
  the boundary behaviour of the comparison `confidence_score < 0.65` is
  preserved.  The rationals are built with the reduced-fraction constructor so
  that they evaluate inside the kernel.
* BeautifulSoup HTML parsing is abstracted: a successfully fetched page is
  given as its already-extracted fields (Page below); the post-extraction
  assembly done by fetch_url_content (structured-data override, truncations,
  the result dictionary) is embedded faithfully.
* The relational store of the endpoints is a record of folder and bookmark
  rows; SQLAlchemy queries become list operations and an HTTPException becomes
  an Except.error carrying status code and detail.
-/

/-! ## Python string primitives -/

/-- Characters stripped by Python str.strip: space, tab, newline, carriage
return, vertical tab, form feed. -/
def pyIsSpace (c : Char) : Bool :=
  c = ' ' ∨ c = '\t' ∨ c = '\n' ∨ c = '\r' ∨ c = Char.ofNat 11 ∨ c = Char.ofNat 12

/-- Fuel-driven splitter over character lists; with fuel at least the length
of the input and a non-empty separator it computes the Python
str.split(sep) semantics (structural recursion so the kernel can run it). -/
def splitFuel (sep : List Char) : Nat → List Char → List Char → List (List Char)
  | 0, acc, _ => [acc.reverse]
  | _ + 1, acc, [] => [acc.reverse]
  | fuel + 1, acc, c :: rest =>
    if sep.isPrefixOf (c :: rest) then
      acc.reverse :: splitFuel sep fuel [] ((c :: rest).drop sep.length)
    else
      splitFuel sep fuel (c :: acc) rest

/-- Python s.split(sep) for a non-empty separator sep. -/
def pySplitOn (s sep : String) : List String :=
  (splitFuel sep.data (s.data.length + 1) [] s.data).map String.mk

/-- Python s[:n]. -/
def pyTake (s : String) (n : Nat) : String :=
  ⟨s.data.take n⟩

/-- Python s[n:]. -/
def pyDrop (s : String) (n : Nat) : String :=
  ⟨s.data.drop n⟩

/-- Python s.startswith(p). -/
def pyStartsWith (s p : String) : Bool :=
  p.data.isPrefixOf s.data

/-- Python s.lower() (ASCII case folding, which covers the folder names the
matcher compares). -/
def pyLower (s : String) : String :=
  ⟨s.data.map Char.toLower⟩

/-- Python s.strip(). -/
def pyStrip (s : String) : String :=
  ⟨(((s.data.dropWhile pyIsSpace).reverse).dropWhile pyIsSpace).reverse⟩

/-- Python len(s). -/
def pyLen (s : String) : Nat :=
  s.data.length

/-- Source expression url.split("//")[-1].split("/")[0] (ai.py lines 141, 148,
232, 241): the text after the LAST occurrence of "//", up to the next "/".
Both inner lists are never empty, so the defaults are never taken. -/
def pyDomain (url : String) : String :=
  (pySplitOn ((pySplitOn url "//").getLastD "") "/").headD ""

/-! ## Exact rational constants of the source -/

/-- The folder-match acceptance threshold 0.65 of ai.py line 367, as the
reduced fraction 13/20. -/
def confidence_threshold : ℚ := ⟨13, 20, by norm_num, by norm_num⟩

/-- The fallback confidence 0.3 of ai.py line 306, as the reduced fraction
3/10. -/
def fallback_confidence : ℚ := ⟨3, 10, by norm_num, by norm_num⟩

/-! ## Data model -/

/-- The fields that the HTML-parsing part of fetch_url_content extracts from a
successfully fetched page, before the result dictionary is assembled
(ai.py lines 60-131).  An absent tag yields the empty string, exactly as the
source produces "" for a missing title or meta description. -/
structure Page where
  title : String
  meta_description : String
  enhanced_title : String
  enhanced_description : String
  main_content : String
  list_items : List String
  keywords : List String
deriving DecidableEq

/-- The JSON dictionary returned by fetch_url_content.  Optional fields model
key presence: the error dictionary of lines 149-153 carries only error,
domain and url, so every other key is `none` there. -/
structure ContentSummary where
  title : Option String
  description : Option String
  content : Option String
  list_items : Option (List String)
  keywords : Option (List String)
  url : String
  domain : String
  error : Option String
deriving DecidableEq

/-- Structured category judgement (ai.py class CategoryResponse / the dict of
lines 294-299 and 303-308). -/
structure CategorySuggestion where
  primary_category : String
  subcategory : String
  confidence_score : ℚ
  rationale : String
deriving DecidableEq

/-- Structured folder-match judgement (ai.py class FolderMatchResponse). -/
structure FolderMatchResponse where
  matching_folder : String
  confidence_score : ℚ
  reasoning : String
deriving DecidableEq

/-! ## Content extractor (ai.py fetch_url_content, lines 44-153) -/

/-- fetch_url_content.  A successful GET assembles the result dictionary of
lines 93-144: the structured-data name/description override the tag values
when non-empty, the main content is truncated (1000 then 1500 characters) and
the list items and keywords are capped at 10.  Any exception is caught and
converted to the degraded dictionary of lines 149-153. -/
def fetch_url_content (url : String) (fetch : Except Unit Page) : ContentSummary :=
  match fetch with
  | .ok p =>
    let title := if p.enhanced_title ≠ "" then p.enhanced_title else p.title
    let meta_desc := if p.enhanced_description ≠ "" then p.enhanced_description else p.meta_description
    let main_content := pyTake p.main_content 1000
    { title := some title
      description := some meta_desc
      content := some (pyTake main_content 1500)
      list_items := some (p.list_items.take 10)
      keywords := some (p.keywords.take 10)
      url := url
      domain := pyDomain url
      error := none }
  | .error _ =>
    { title := none
      description := none
      content := none
      list_items := none
      keywords := none
      url := url
      domain := pyDomain url
      error := some ("Could not fetch content from " ++ url) }

/-! ## Metadata generator (ai.py generate_title_description, lines 155-242) -/

/-- The response-parsing loop of lines 220-228: scan the lines of the model
output; a stripped line starting with "Title:" sets the title from its
remainder, one starting with "Description:" sets the description; later
occurrences overwrite earlier ones. -/
def parseTitleDesc (result : String) : String × String :=
  (pySplitOn result "\n").foldl
    (fun acc line =>
      let l := pyStrip line
      if pyStartsWith l "Title:" then (pyStrip (pyDrop l 6), acc.2)
      else if pyStartsWith l "Description:" then (acc.1, pyStrip (pyDrop l 12))
      else acc)
    ("", "")

/-- generate_title_description.  `gen` is the outcome of the generation chain
call of line 217 (the fetch itself cannot raise: it catches internally).  On
success the parsed title falls back to content.get("title", domain) when
missing or shorter than 5 characters, and the parsed description to
content.get("description", "No description available.") when missing or
shorter than 10; the Python dict .get default fires only when the key is
absent, i.e. only for the degraded fetch dictionary.  Any exception yields
(domain, "No description available") per lines 238-242. -/
def generate_title_description (url user_note : String) (fetch : Except Unit Page)
    (gen : Except Unit String) : String × String :=
  match gen with
  | .error _ => (pyDomain url, "No description available")
  | .ok result =>
    let content := fetch_url_content url fetch
    let parsed := parseTitleDesc result
    let title :=
      if pyLen parsed.1 < 5 then content.title.getD (pyDomain url) else parsed.1
    let description :=
      if pyLen parsed.2 < 10 then content.description.getD "No description available."
      else parsed.2
    (title, description)

/-! ## Category analyzer (ai.py analyze_content_for_category, lines 244-308) -/

/-- analyze_content_for_category.  `call` is the outcome of the structured
generation chain; a successful parse is returned as is, any failure yields the
designated fallback of lines 303-308. -/
def analyze_content_for_category (call : Except Unit CategorySuggestion) : CategorySuggestion :=
  match call with
  | .ok r => r
  | .error _ =>
    { primary_category := "Uncategorized"
      subcategory := "General"
      confidence_score := fallback_confidence
      rationale := "Could not analyze content properly due to an error." }

/-! ## Folder matcher (ai.py find_matching_folder, lines 310-385) -/

/-- find_matching_folder.  Empty folder list: immediately None (line 320,
before the model is consulted).  A model failure is caught and becomes None
(lines 383-385).  Otherwise the match is rejected when the identifier is
"create_new" or the confidence is below the 0.65 threshold (line 367);
an accepted match is resolved first case-sensitively, then case-insensitively
against the stored names (lines 370-381). -/
def find_matching_folder (category_suggestion : CategorySuggestion)
    (existing_folders : List String)
    (call : Except Unit FolderMatchResponse) : Option String :=
  if existing_folders.isEmpty then none
  else
    match call with
    | .error _ => none
    | .ok r =>
      if r.matching_folder = "create_new" ∨ r.confidence_score < confidence_threshold then
        none
      else
        match existing_folders.find? (fun folder => folder == r.matching_folder) with
        | some folder => some folder
        | none =>
          existing_folders.find? (fun folder => pyLower folder == pyLower r.matching_folder)

/-! ## New-folder naming (ai.py suggest_folder_name, lines 387-436) -/

/-- The extraction loop of lines 420-424: the first response line starting
with "Folder:" (not stripped before the prefix test), with the remainder
stripped; empty when no line matches. -/
def extract_folder_line (result : String) : String :=
  match (pySplitOn result "\n").find? (fun l => pyStartsWith l "Folder:") with
  | some line => pyStrip (pyDrop line 7)
  | none => ""

/-- suggest_folder_name.  A successful generation keeps the extracted name
when it is non-empty and longer than 2 characters, truncated to 30 characters
(lines 427-429); otherwise it falls back to the primary category (line 432).
Only an exception yields "Uncategorized" (lines 434-436). -/
def suggest_folder_name (category_suggestion : CategorySuggestion)
    (call : Except Unit String) : String :=
  match call with
  | .error _ => "Uncategorized"
  | .ok result =>
    let folder_name := extract_folder_line result
    if folder_name ≠ "" ∧ 2 < pyLen folder_name then pyTake folder_name 30
    else category_suggestion.primary_category

/-! ## Folder suggestion (ai.py suggest_folder, lines 438-462) -/

/-- suggest_folder.  Composes the analyzer, the matcher and the namer; the
Python truthiness test `if matching_folder:` means an empty-string match is
treated like no match.  The outer except of lines 460-462 is unreachable in
this model because every stage absorbs its own failure. -/
def suggest_folder (url title description user_note : String)
    (existing_folders : List String)
    (cat_call : Except Unit CategorySuggestion)
    (match_call : Except Unit FolderMatchResponse)
    (name_call : Except Unit String) : String :=
  let category_data := analyze_content_for_category cat_call
  match find_matching_folder category_data existing_folders match_call with
  | some folder =>
    if folder ≠ "" then folder else suggest_folder_name category_data name_call
  | none => suggest_folder_name category_data name_call

/-! ## Orchestrator (ai.py process_bookmark, lines 465-479) -/

/-- process_bookmark.  A None folder list is normalised to the empty list
(lines 470-471), then metadata generation and folder suggestion run in
sequence and the triple is returned. -/
def process_bookmark (url user_note : String) (existing_folders : Option (List String))
    (fetch : Except Unit Page) (gen : Except Unit String)
    (cat_call : Except Unit CategorySuggestion)
    (match_call : Except Unit FolderMatchResponse)
    (name_call : Except Unit String) : String × String × String :=
  let folders := existing_folders.getD []
  let td := generate_title_description url user_note fetch gen
  let folder_name := suggest_folder url td.1 td.2 user_note folders cat_call match_call name_call
  (td.1, td.2, folder_name)

/-! ## Persistence model and API endpoints -/

/-- A row of the folders table. -/
structure FolderRow where
  id : Nat
  name : String
deriving DecidableEq

/-- A row of the bookmarks table. -/
structure BookmarkRow where
  id : Nat
  url : String
  title : String
  description : String
  user_note : String
  folder_id : Nat
deriving DecidableEq

/-- The relational store visible to the endpoints. -/
structure Store where
  folders : List FolderRow
  bookmarks : List BookmarkRow
  next_folder_id : Nat
  next_bookmark_id : Nat
deriving DecidableEq

/-- An HTTPException (status code and detail), or the 500 produced by an
uncaught exception inside a handler. -/
structure HTTPError where
  status : Nat
  detail : String
deriving DecidableEq

/-- Request body of the create-bookmark endpoint. -/
structure BookmarkCreate where
  url : String
  user_note : String
deriving DecidableEq

/-- delete_folder endpoint (folders.py lines 40-57): 404 when the id is
unknown; a 400 refusal, leaving the store untouched, when the folder still
owns bookmarks; otherwise the folder row is removed. -/
def delete_folder (db : Store) (folder_id : Nat) : Except HTTPError Unit × Store :=
  match db.folders.find? (fun f => f.id == folder_id) with
  | none => (.error ⟨404, "Folder not found"⟩, db)
  | some f =>
    if db.bookmarks.any (fun b => b.folder_id == f.id) then
      (.error ⟨400, "Cannot delete folder with bookmarks. Move or delete bookmarks first."⟩, db)
    else
      (.ok (), { db with folders := db.folders.filter (fun g => g.id ≠ f.id) })

/-- Number of parameters declared by ai.py suggest_folder (line 438):
url, title, description, user_note, existing_folders — all without defaults. -/
def suggest_folder_required_params : Nat := 5

/-- Number of positional arguments that bookmarks.py line 21 passes to
suggest_folder: title, description, existing_folders. -/
def create_bookmark_call_args : Nat := 3

/-- The get-or-create step of bookmarks.py lines 24-29. -/
def get_or_create_folder (db : Store) (name : String) : Store × Nat :=
  match db.folders.find? (fun f => f.name == name) with
  | some f => (db, f.id)
  | none =>
    ({ db with
        folders := db.folders ++ [⟨db.next_folder_id, name⟩]
        next_folder_id := db.next_folder_id + 1 },
      db.next_folder_id)

/-- create_bookmark endpoint (bookmarks.py lines 11-44).  After metadata
generation and the folder-list query, line 21 invokes suggest_folder with
three positional arguments while the callee declares five required
parameters; CPython raises TypeError at that call, which the framework
surfaces as a 500 response, and nothing is persisted.  The else branch below
spells out the continuation the source intends (get-or-create the folder,
insert the bookmark) but is unreachable. -/
def create_bookmark (db : Store) (bm : BookmarkCreate)
    (fetch : Except Unit Page) (gen : Except Unit String)
    (cat_call : Except Unit CategorySuggestion)
    (match_call : Except Unit FolderMatchResponse)
    (name_call : Except Unit String) : Except HTTPError BookmarkRow × Store :=
  let td := generate_title_description bm.url bm.user_note fetch gen
  let existing_folders := db.folders.map (fun f => f.name)
  if create_bookmark_call_args < suggest_folder_required_params then
    (.error ⟨500, "TypeError: suggest_folder missing 2 required positional arguments"⟩, db)
  else
    let folder_name :=
      suggest_folder bm.url td.1 td.2 bm.user_note existing_folders cat_call match_call name_call
    let dbf := get_or_create_folder db folder_name
    let row : BookmarkRow :=
      ⟨dbf.1.next_bookmark_id, bm.url, td.1, td.2, bm.user_note, dbf.2⟩
    (.ok row,
      { dbf.1 with
          bookmarks := dbf.1.bookmarks ++ [row]
          next_bookmark_id := dbf.1.next_bookmark_id + 1 })

/-! ## Spec-side definition for the domain refinement (claim C6) -/

/-- Drop everything up to and including the FIRST occurrence of sep; empty
when sep does not occur. -/
def dropAfterFirst (sep : List Char) : List Char → List Char
  | [] => []
  | c :: rest =>
    if sep.isPrefixOf (c :: rest) then (c :: rest).drop sep.length
    else dropAfterFirst sep rest

/-- The domain as the specification words it (spec section 4.1): the substring
of the URL between the FIRST occurrence of "//" and the next "/".  Stated for
comparison with pyDomain, which the source computes from the LAST "//". -/
def spec_domain_between (url : String) : String :=
  ⟨(dropAfterFirst "//".data url.data).takeWhile (fun c => c ≠ '/')⟩

/-- Accepted-score example value 0.8, as the reduced fraction 4/5, used by
concrete evaluations. -/
def high_confidence : ℚ := ⟨4, 5, by norm_num, by norm_num⟩

/-! ## Helper lemmas -/

theorem confidence_threshold_eq : confidence_threshold = 65/100 := by
  rw [confidence_threshold, Rat.mk'_eq_divInt, Rat.divInt_eq_div]
  norm_num

theorem fallback_confidence_eq : fallback_confidence = 3/10 := by
  rw [fallback_confidence, Rat.mk'_eq_divInt, Rat.divInt_eq_div]
  norm_num

theorem ne_empty_of_pyLen_pos {s : String} (h : 0 < pyLen s) : s ≠ "" := by
  intro he
  subst he
  exact absurd h (by decide)

theorem generate_title_description_ok (url user_note : String) (fetch : Except Unit Page)
    (raw : String) :
    generate_title_description url user_note fetch (.ok raw) =
      ((if pyLen (parseTitleDesc raw).1 < 5 then
          (fetch_url_content url fetch).title.getD (pyDomain url)
        else (parseTitleDesc raw).1),
       (if pyLen (parseTitleDesc raw).2 < 10 then
          (fetch_url_content url fetch).description.getD "No description available."
        else (parseTitleDesc raw).2)) := rfl

theorem mem_of_find_matching_folder {s : CategorySuggestion} {l : List String}
    {o : Except Unit FolderMatchResponse} {f : String}
    (h : find_matching_folder s l o = some f) : f ∈ l := by
  unfold find_matching_folder at h
  split at h
  · exact absurd h (by simp)
  · cases o with
    | error e => exact absurd h (by simp)
    | ok r =>
      simp only at h
      split at h
      · exact absurd h (by simp)
      · split at h
        · next m heq =>
          cases h
          exact List.mem_of_find?_eq_some heq
        · exact List.mem_of_find?_eq_some h

theorem find?_beq_self_of_mem {m : String} {l : List String} :
    m ∈ l → l.find? (fun f => f == m) = some m := by
  induction l with
  | nil => intro h; cases h
  | cons a t ih =>
    intro h
    rw [List.find?_cons]
    cases hab : a == m with
    | true => simp [eq_of_beq hab]
    | false =>
      simp only [hab]
      cases h with
      | head => simp at hab
      | tail _ h => exact ih h

theorem find?_beq_eq_none_of_not_mem {m : String} {l : List String} (h : m ∉ l) :
    l.find? (fun f => f == m) = none := by
  rw [List.find?_eq_none]
  intro a ha hb
  exact h (eq_of_beq hb ▸ ha)

theorem gen_err_title (url user_note : String) (gen : Except Unit String) :
    (generate_title_description url user_note (.error ()) gen).1 = pyDomain url
      ∨ 5 ≤ pyLen (generate_title_description url user_note (.error ()) gen).1 := by
  cases gen with
  | error e => left; rfl
  | ok raw =>
    rw [generate_title_description_ok]
    by_cases h : pyLen (parseTitleDesc raw).1 < 5
    · left
      simp only [if_pos h]
      rfl
    · right
      simp only [if_neg h]
      omega

theorem gen_err_descr_ne (url user_note : String) (gen : Except Unit String) :
    (generate_title_description url user_note (.error ()) gen).2 ≠ "" := by
  cases gen with
  | error e => simp [generate_title_description]
  | ok raw =>
    rw [generate_title_description_ok]
    by_cases h : pyLen (parseTitleDesc raw).2 < 10
    · simp only [if_pos h]
      exact (by decide : ((none : Option String).getD "No description available.") ≠ "")
    · simp only [if_neg h]
      exact ne_empty_of_pyLen_pos (by omega)

theorem suggest_folder_cases (url title description user_note : String)
    (folders : List String) (cat_call : Except Unit CategorySuggestion)
    (match_call : Except Unit FolderMatchResponse) (name_call : Except Unit String) :
    suggest_folder url title description user_note folders cat_call match_call name_call ∈ folders
    ∨ suggest_folder url title description user_note folders cat_call match_call name_call
        = suggest_folder_name (analyze_content_for_category cat_call) name_call := by
  cases hm : find_matching_folder (analyze_content_for_category cat_call) folders match_call with
  | none =>
    right
    unfold suggest_folder
    simp only [hm]
  | some f =>
    by_cases hf : f ≠ ""
    · left
      unfold suggest_folder
      simp only [hm, if_pos hf]
      exact mem_of_find_matching_folder hm
    · right
      unfold suggest_folder
      simp only [hm, if_neg hf]

/-! ## Claim theorems -/

/-- Claim C1 (code_bug evaluation): for every store, request body and every
outcome of the pipeline calls, the create-bookmark endpoint returns the 500
TypeError response and leaves the store untouched: the source passes 3
positional arguments to suggest_folder, which requires 5, so the call raises
before the folder or the bookmark is persisted.  The claim that creation is
never blocked is the intent of the spec; the code contradicts it on every
request. -/
theorem create_bookmark_type_error (db : Store) (bm : BookmarkCreate)
    (fetch : Except Unit Page) (gen : Except Unit String)
    (cat_call : Except Unit CategorySuggestion)
    (match_call : Except Unit FolderMatchResponse)
    (name_call : Except Unit String) :
    (create_bookmark db bm fetch gen cat_call match_call name_call).1
      = .error ⟨500, "TypeError: suggest_folder missing 2 required positional arguments"⟩
    ∧ (create_bookmark db bm fetch gen cat_call match_call name_call).2 = db
    ∧ create_bookmark_call_args < suggest_folder_required_params :=
  ⟨rfl, rfl, by decide⟩

/-- Claim C6 (counterexample): the claim says the degraded summary parses the
domain as the substring between the FIRST "//" and the next "/"; the source
takes the text after the LAST "//".  On the URL "http://a//b" the code yields
"b" while the claimed parse yields "a". -/
theorem fetch_url_content_domain_cex :
    (fetch_url_content "http://a//b" (.error ())).domain = "b"
    ∧ spec_domain_between "http://a//b" = "a"
    ∧ (fetch_url_content "http://a//b" (.error ())).domain
        ≠ spec_domain_between "http://a//b" := by
  decide

/-- Claim C6 (amended): on any fetch failure the extractor propagates no
error and returns the degraded summary that carries no title, description,
content, list or keyword fields, only the domain — parsed as the substring of
the URL after the LAST "//" and before the next "/" — together with the
original URL and the error marker. -/
theorem fetch_url_content_failure (url : String) :
    fetch_url_content url (.error ()) =
      { title := none, description := none, content := none, list_items := none,
        keywords := none, url := url, domain := pyDomain url,
        error := some ("Could not fetch content from " ++ url) } := rfl

/-- Claim C7: whenever the generation step itself raises, the generator
returns exactly (domain of the URL, "No description available"), for every
URL, user note and fetch outcome; the exception is absorbed. -/
theorem generate_title_description_exception (url user_note : String)
    (fetch : Except Unit Page) :
    generate_title_description url user_note fetch (.error ())
      = (pyDomain url, "No description available") := rfl

/-- Claim C8: whenever the category analysis call fails, the analyzer returns
exactly the fallback suggestion Uncategorized / General with confidence 0.3
and a rationale explaining the failure; nothing is raised. -/
theorem analyze_content_fallback :
    analyze_content_for_category (.error ())
      = { primary_category := "Uncategorized", subcategory := "General",
          confidence_score := fallback_confidence,
          rationale := "Could not analyze content properly due to an error." }
    ∧ fallback_confidence = 3/10 :=
  ⟨rfl, fallback_confidence_eq⟩

/-- Claim C10: the orchestrator treats an omitted (None) folder list exactly
like the empty list, for every URL, note and every outcome of the stages. -/
theorem process_bookmark_none_folders (url user_note : String)
    (fetch : Except Unit Page) (gen : Except Unit String)
    (cat_call : Except Unit CategorySuggestion)
    (match_call : Except Unit FolderMatchResponse)
    (name_call : Except Unit String) :
    process_bookmark url user_note none fetch gen cat_call match_call name_call
      = process_bookmark url user_note (some []) fetch gen cat_call match_call name_call := rfl

/-- Claim C3 (counterexample): with a reachable page whose extracted title is
the empty string and a model response without parseable lines, the returned
title is the empty extracted title, not the domain of the URL: the domain
default of content.get("title", domain) fires only when the key is absent. -/
theorem generate_title_description_empty_title_cex :
    (generate_title_description "https://example.com" ""
        (.ok ⟨"", "", "", "", "", [], []⟩) (.ok "junk")).1 = ""
    ∧ pyDomain "https://example.com" = "example.com" := by
  decide

/-- Claim C3 (amended): when the parsed title is missing or shorter than 5
characters the returned title is the extracted summary title and only when
the summary has no title field (exactly the fetch-failure case) the domain;
symmetrically for the description with the literal
"No description available.", and otherwise the parsed values are kept. -/
theorem generate_title_description_fallback_policy (url user_note : String)
    (fetch : Except Unit Page) (raw : String) :
    (pyLen (parseTitleDesc raw).1 < 5 →
      (generate_title_description url user_note fetch (.ok raw)).1
        = (fetch_url_content url fetch).title.getD (pyDomain url))
    ∧ (5 ≤ pyLen (parseTitleDesc raw).1 →
      (generate_title_description url user_note fetch (.ok raw)).1 = (parseTitleDesc raw).1)
    ∧ (pyLen (parseTitleDesc raw).2 < 10 →
      (generate_title_description url user_note fetch (.ok raw)).2
        = (fetch_url_content url fetch).description.getD "No description available.")
    ∧ (10 ≤ pyLen (parseTitleDesc raw).2 →
      (generate_title_description url user_note fetch (.ok raw)).2 = (parseTitleDesc raw).2)
    ∧ ((fetch_url_content url fetch).title = none ↔ fetch = .error ())
    ∧ ((fetch_url_content url fetch).description = none ↔ fetch = .error ()) := by
  refine ⟨?_, ?_, ?_, ?_, ?_, ?_⟩
  · intro h
    rw [generate_title_description_ok]
    simp only [if_pos h]
  · intro h
    rw [generate_title_description_ok]
    simp only [if_neg (by omega : ¬ pyLen (parseTitleDesc raw).1 < 5)]
  · intro h
    rw [generate_title_description_ok]
    simp only [if_pos h]
  · intro h
    rw [generate_title_description_ok]
    simp only [if_neg (by omega : ¬ pyLen (parseTitleDesc raw).2 < 10)]
  · cases fetch with
    | ok p => simp [fetch_url_content]
    | error e => simp [fetch_url_content]
  · cases fetch with
    | ok p => simp [fetch_url_content]
    | error e => simp [fetch_url_content]

/-- Claim C3 witness: a parsed title of 2 characters on a failed fetch falls
back through the absent title field to the URL domain. -/
theorem generate_title_description_fallback_policy_wit :
    (generate_title_description "https://example.com" "" (.error ())
        (.ok "Title: ab")).1 = "example.com" := by
  have h := generate_title_description_fallback_policy "https://example.com" ""
    (.error ()) "Title: ab"
  exact (h.1 (by decide)).trans (by decide)

/-- Claim C5 (counterexample): a generated five-word folder name of 30
characters is kept whole (no truncation to the first 3 words), and a 2
character name falls back to the primary category, not to "Uncategorized". -/
theorem suggest_folder_name_postprocess_cex :
    suggest_folder_name ⟨"Technology", "Programming", fallback_confidence, "x"⟩
        (.ok "Folder: Alpha Beta Gamma Delta Epsilon")
      = "Alpha Beta Gamma Delta Epsilon"
    ∧ (pySplitOn "Alpha Beta Gamma Delta Epsilon" " ").length = 5
    ∧ suggest_folder_name ⟨"Technology", "Programming", fallback_confidence, "x"⟩
        (.ok "Folder: Ab") = "Technology" := by
  decide

/-- Claim C5 (amended): the post-processing keeps the extracted name truncated
to its first 30 characters whenever it is longer than 2 characters, with no
word-based truncation; a name of at most 2 characters (including the empty
extraction) is replaced by the primary category of the suggestion, and the
literal "Uncategorized" is produced only when the generation call raises. -/
theorem suggest_folder_name_policy (s : CategorySuggestion) (raw : String) :
    (2 < pyLen (extract_folder_line raw) →
      suggest_folder_name s (.ok raw) = pyTake (extract_folder_line raw) 30)
    ∧ (pyLen (extract_folder_line raw) ≤ 2 →
      suggest_folder_name s (.ok raw) = s.primary_category)
    ∧ suggest_folder_name s (.error ()) = "Uncategorized" := by
  refine ⟨?_, ?_, rfl⟩
  · intro h
    have hne : extract_folder_line raw ≠ "" := ne_empty_of_pyLen_pos (by omega)
    show (if extract_folder_line raw ≠ "" ∧ 2 < pyLen (extract_folder_line raw) then
        pyTake (extract_folder_line raw) 30 else s.primary_category) = _
    rw [if_pos ⟨hne, h⟩]
  · intro h
    show (if extract_folder_line raw ≠ "" ∧ 2 < pyLen (extract_folder_line raw) then
        pyTake (extract_folder_line raw) 30 else s.primary_category) = _
    rw [if_neg (fun hc => absurd hc.2 (by omega))]

/-- Claim C5 witness: a 16-character extracted name is returned as is. -/
theorem suggest_folder_name_policy_wit :
    suggest_folder_name ⟨"Technology", "Programming", fallback_confidence, "x"⟩
        (.ok "Folder: Machine Learning") = "Machine Learning" := by
  have h := suggest_folder_name_policy
    ⟨"Technology", "Programming", fallback_confidence, "x"⟩ "Folder: Machine Learning"
  exact (h.1 (by decide)).trans (by decide)

/-- Claim C4: the matcher returns none on an empty folder list and on a
failed call; given a parsed response it accepts only a non-"create_new"
identifier with confidence at least the 0.65 threshold (the boundary value is
accepted, per the not-strictly-below test); an accepted identifier resolves
first by exact case-sensitive match (returning the identifier itself, which
then is a stored name), then by the first case-insensitive match; every
returned name is one of the stored names. -/
theorem find_matching_folder_policy (s : CategorySuggestion) (existing : List String)
    (call : Except Unit FolderMatchResponse) :
    (existing = [] → find_matching_folder s existing call = none)
    ∧ (call = .error () → find_matching_folder s existing call = none)
    ∧ (∀ r, call = .ok r → existing ≠ [] →
        ((r.matching_folder = "create_new" ∨ r.confidence_score < confidence_threshold) →
          find_matching_folder s existing call = none)
        ∧ (r.matching_folder ≠ "create_new" → confidence_threshold ≤ r.confidence_score →
            (r.matching_folder ∈ existing →
              find_matching_folder s existing call = some r.matching_folder)
            ∧ (r.matching_folder ∉ existing →
              find_matching_folder s existing call
                = existing.find? (fun folder => pyLower folder == pyLower r.matching_folder))))
    ∧ (∀ f, find_matching_folder s existing call = some f → f ∈ existing)
    ∧ confidence_threshold = 65/100 := by
  refine ⟨?_, ?_, ?_, fun f h => mem_of_find_matching_folder h, confidence_threshold_eq⟩
  · intro h
    subst h
    rfl
  · intro h
    subst h
    unfold find_matching_folder
    split
    · rfl
    · rfl
  · intro r hc hne
    subst hc
    have hie : existing.isEmpty = false := by
      cases existing with
      | nil => exact absurd rfl hne
      | cons a t => rfl
    constructor
    · intro hrej
      unfold find_matching_folder
      simp only [hie, Bool.false_eq_true, if_false]
      rw [if_pos hrej]
    · intro hcn hconf
      have hacc : ¬ (r.matching_folder = "create_new"
          ∨ r.confidence_score < confidence_threshold) :=
        not_or.mpr ⟨hcn, not_lt.mpr hconf⟩
      constructor
      · intro hm
        unfold find_matching_folder
        simp only [hie, Bool.false_eq_true, if_false]
        rw [if_neg hacc, find?_beq_self_of_mem hm]
      · intro hnm
        unfold find_matching_folder
        simp only [hie, Bool.false_eq_true, if_false]
        rw [if_neg hacc, find?_beq_eq_none_of_not_mem hnm]

/-- Claim C4 witness: with folders ["Tech News", "Cooking"], a parsed match
"tech news" at confidence 0.8 has no exact match and resolves
case-insensitively to the stored name "Tech News" with its original casing. -/
theorem find_matching_folder_policy_wit :
    find_matching_folder ⟨"Technology", "Programming", fallback_confidence, "x"⟩
        ["Tech News", "Cooking"] (.ok ⟨"tech news", high_confidence, "m"⟩)
      = some "Tech News" := by
  have h := find_matching_folder_policy
    ⟨"Technology", "Programming", fallback_confidence, "x"⟩
    ["Tech News", "Cooking"] (.ok ⟨"tech news", high_confidence, "m"⟩)
  have h2 := ((h.2.2.1 ⟨"tech news", high_confidence, "m"⟩ rfl (by decide)).2
    (by decide) (by decide)).2 (by decide)
  exact h2.trans (by decide)

/-- Claim C2 (counterexample): for the unreachable URL "http://" (whose
domain parse is empty) with all generation calls failing except a folder
match on the existing folder "Tech", the orchestrator returns an EMPTY title
and the matched existing folder — the claim asserts a non-empty title and a
folder equal to "Uncategorized" or a generated fallback name. -/
theorem process_bookmark_empty_domain_cex :
    process_bookmark "http://" "" (some ["Tech"]) (.error ()) (.error ()) (.error ())
        (.ok ⟨"Tech", high_confidence, "m"⟩) (.error ())
      = ("", "No description available", "Tech") := by
  decide

/-- Claim C2 (amended): the orchestrator is total — it always returns the
full triple — and on any unreachable URL (fetch failure) the title is either
a parsed model title of at least 5 characters or the URL domain, hence
non-empty whenever the domain parse is non-empty; the description is always
non-empty; and the folder name is either one of the existing folders accepted
by the matcher or exactly the output of the new-folder naming step (which is
"Uncategorized" when that call fails). -/
theorem process_bookmark_unreachable (url user_note : String)
    (existing_folders : Option (List String)) (gen : Except Unit String)
    (cat_call : Except Unit CategorySuggestion)
    (match_call : Except Unit FolderMatchResponse)
    (name_call : Except Unit String) :
    ((process_bookmark url user_note existing_folders (.error ()) gen cat_call
        match_call name_call).1 = pyDomain url
      ∨ 5 ≤ pyLen (process_bookmark url user_note existing_folders (.error ()) gen cat_call
        match_call name_call).1)
    ∧ (pyDomain url ≠ "" →
        (process_bookmark url user_note existing_folders (.error ()) gen cat_call
          match_call name_call).1 ≠ "")
    ∧ (process_bookmark url user_note existing_folders (.error ()) gen cat_call
        match_call name_call).2.1 ≠ ""
    ∧ ((process_bookmark url user_note existing_folders (.error ()) gen cat_call
          match_call name_call).2.2 ∈ existing_folders.getD []
      ∨ (process_bookmark url user_note existing_folders (.error ()) gen cat_call
          match_call name_call).2.2
        = suggest_folder_name (analyze_content_for_category cat_call) name_call) := by
  have key1 : (process_bookmark url user_note existing_folders (.error ()) gen cat_call
      match_call name_call).1 = (generate_title_description url user_note (.error ()) gen).1 := rfl
  have key2 : (process_bookmark url user_note existing_folders (.error ()) gen cat_call
      match_call name_call).2.1 = (generate_title_description url user_note (.error ()) gen).2 := rfl
  have key3 : (process_bookmark url user_note existing_folders (.error ()) gen cat_call
      match_call name_call).2.2
      = suggest_folder url (generate_title_description url user_note (.error ()) gen).1
          (generate_title_description url user_note (.error ()) gen).2 user_note
          (existing_folders.getD []) cat_call match_call name_call := rfl
  refine ⟨?_, ?_, ?_, ?_⟩
  · rw [key1]
    exact gen_err_title url user_note gen
  · intro hd
    rw [key1]
    rcases gen_err_title url user_note gen with h | h
    · rw [h]
      exact hd
    · exact ne_empty_of_pyLen_pos (by omega)
  · rw [key2]
    exact gen_err_descr_ne url user_note gen
  · rw [key3]
    exact suggest_folder_cases url _ _ user_note (existing_folders.getD [])
      cat_call match_call name_call

/-- Claim C2 witness: an unreachable URL with a non-empty domain and every
call failing yields the non-empty domain title. -/
theorem process_bookmark_unreachable_wit :
    (process_bookmark "https://example.com/page" "" (some ["Tech"]) (.error ())
        (.error ()) (.error ()) (.error ()) (.error ())).1 ≠ "" := by
  have h := process_bookmark_unreachable "https://example.com/page" "" (some ["Tech"])
    (.error ()) (.error ()) (.error ()) (.error ())
  exact h.2.1 (by decide)

/-- Claim C9: deleting a folder that owns at least one bookmark fails with
the 400 refusal and leaves the store unchanged; deleting a folder with no
bookmarks succeeds, removes exactly that folder id from the folder table and
keeps the bookmarks. -/
theorem delete_folder_guard (db : Store) (folder_id : Nat) (f : FolderRow)
    (hf : db.folders.find? (fun g => g.id == folder_id) = some f) :
    ((∃ b ∈ db.bookmarks, b.folder_id = f.id) →
        (delete_folder db folder_id).1
          = .error ⟨400, "Cannot delete folder with bookmarks. Move or delete bookmarks first."⟩
        ∧ (delete_folder db folder_id).2 = db)
    ∧ ((∀ b ∈ db.bookmarks, b.folder_id ≠ f.id) →
        (delete_folder db folder_id).1 = .ok ()
        ∧ (delete_folder db folder_id).2.bookmarks = db.bookmarks
        ∧ ∀ g, g ∈ (delete_folder db folder_id).2.folders ↔ g ∈ db.folders ∧ g.id ≠ f.id) := by
  have heval : delete_folder db folder_id =
      (if db.bookmarks.any (fun b => b.folder_id == f.id) then
        (.error ⟨400, "Cannot delete folder with bookmarks. Move or delete bookmarks first."⟩, db)
      else
        (.ok (), { db with folders := db.folders.filter (fun g => g.id ≠ f.id) })) := by
    unfold delete_folder
    rw [hf]
  constructor
  · rintro ⟨b, hb, hid⟩
    have hany : db.bookmarks.any (fun b => b.folder_id == f.id) = true :=
      List.any_eq_true.mpr ⟨b, hb, by simp [hid]⟩
    rw [heval, if_pos hany]
    exact ⟨rfl, rfl⟩
  · intro hall
    have hany : db.bookmarks.any (fun b => b.folder_id == f.id) = false :=
      List.any_eq_false.mpr (fun b hb => by simpa using hall b hb)
    have hnot : ¬ (db.bookmarks.any (fun b => b.folder_id == f.id) = true) := by
      simp [hany]
    rw [heval, if_neg hnot]
    refine ⟨rfl, rfl, fun g => ?_⟩
    simp [List.mem_filter]

/-- Claim C9 witness: a folder owning one bookmark is refused with the 400
conflict detail; after deleting that bookmark the same folder deletes. -/
theorem delete_folder_guard_wit :
    (delete_folder ⟨[⟨1, "Tech"⟩], [⟨1, "u", "t", "d", "", 1⟩], 2, 2⟩ 1).1
      = .error ⟨400, "Cannot delete folder with bookmarks. Move or delete bookmarks first."⟩
    ∧ (delete_folder ⟨[⟨1, "Tech"⟩], [], 2, 2⟩ 1).1 = .ok () := by
  constructor
  · have h := delete_folder_guard ⟨[⟨1, "Tech"⟩], [⟨1, "u", "t", "d", "", 1⟩], 2, 2⟩ 1
      ⟨1, "Tech"⟩ (by decide)
    exact (h.1 ⟨⟨1, "u", "t", "d", "", 1⟩, by decide, by decide⟩).1
  · have h := delete_folder_guard ⟨[⟨1, "Tech"⟩], [], 2, 2⟩ 1 ⟨1, "Tech"⟩ (by decide)
    exact (h.2 (by intro b hb; cases hb)).1
